import Mathlib

/-!
Verification development for the EPG fetch pipeline.

Shallow embedding of the fetch-pipeline core: channel/program merging
(app/utils/data_merging.py), database operations (app/services/db_service.py),
the XMLTV parser (app/services/xmltv_parser_service.py), the downloader retry
loop (app/utils/file_operations.py), the async parse wrapper
(app/services/epg_downloader_service.py) and the orchestrator
(app/services/epg_fetch_service.py).

Datetimes are modelled as absolute seconds (Int); rows of the two tables are
modelled as lists of payload records.  The created_at columns, logging and
SQLite pragma tuning are not referenced by any verified property and are not
modelled.
-/

namespace Epg

/-- Python truthiness of an optional string: None and the empty string are
falsy, every other string is truthy. -/
def pyTruthyOpt : Option String → Bool
  | none => false
  | some s => s ≠ ""

/-! ## app/utils/data_merging.py -/

/-- ChannelTuple from data_merging.py: (xmltv_id, display_name, icon_url). -/
def ChannelTuple : Type := String × String × Option String

instance : DecidableEq ChannelTuple := by
  unfold ChannelTuple
  infer_instance

/-- Model of a Python dict preserving insertion order: an association list in
key insertion order, where inserting an existing key updates the stored value
in place. -/
def ChanDict : Type := List (String × ChannelTuple)

instance : DecidableEq ChanDict := by
  unfold ChanDict
  infer_instance

/-- Lookup of a key in the dict model. -/
def dictFind? (d : ChanDict) (k : String) : Option ChannelTuple :=
  match d with
  | [] => none
  | (k0, v0) :: rest => if k0 = k then some v0 else dictFind? rest k

/-- Insertion into the dict model: update in place when the key is present,
append otherwise (Python dict semantics, insertion order preserved). -/
def dictInsert (d : ChanDict) (k : String) (v : ChannelTuple) : ChanDict :=
  match d with
  | [] => [(k, v)]
  | (k0, v0) :: rest =>
      if k0 = k then (k0, v) :: rest else (k0, v0) :: dictInsert rest k v

/-- Embedding of merge_channels (data_merging.py lines 19-58): fold the new
channel tuples into the existing dict; a channel id not yet present is added
and counted as new; for a present id the display name and icon are updated to
the new value whenever the new value is truthy (non-empty), keeping the old
value otherwise. -/
def merge_channels (existing : ChanDict) (new_channels : List ChannelTuple) :
    ChanDict × Nat :=
  match new_channels with
  | [] => (existing, 0)
  | c :: rest =>
      let xmltv_id := c.1
      match dictFind? existing xmltv_id with
      | none =>
          let r := merge_channels (dictInsert existing xmltv_id c) rest
          (r.1, r.2 + 1)
      | some ex =>
          let existing_display := ex.2.1
          let existing_icon := ex.2.2
          let new_display := c.2.1
          let new_icon := c.2.2
          let updated_display :=
            if new_display ≠ "" then new_display else existing_display
          let updated_icon :=
            if pyTruthyOpt new_icon then new_icon else existing_icon
          let existing' :=
            if updated_display ≠ existing_display ∨ updated_icon ≠ existing_icon
            then dictInsert existing xmltv_id (xmltv_id, updated_display, updated_icon)
            else existing
          merge_channels existing' rest

/-! ## Channel rows and the upsert of store_channels -/

/-- ChannelPayload from app/services/fetch_types.py; also used as the model of
a channels table row (created_at is not claim-relevant). -/
structure ChannelPayload where
  xmltv_id : String
  display_name : String
  icon_url : Option String
  deriving DecidableEq, Repr

/-- Row transformation of the ON CONFLICT(xmltv_id) DO UPDATE clause of
store_channels (db_service.py lines 108-116): display_name is set to the
incoming value unconditionally, icon_url is COALESCE(excluded.icon_url,
channels.icon_url), keeping the stored icon only when the incoming one is
NULL. -/
def upsert_channel_row (old : ChannelPayload) (excluded : ChannelPayload) :
    ChannelPayload :=
  { old with
    display_name := excluded.display_name,
    icon_url :=
      match excluded.icon_url with
      | some v => some v
      | none => old.icon_url }

/-- Last-occurrence deduplication by xmltv_id performed by store_channels
(db_service.py lines 101-104): a dict comprehension keyed by xmltv_id keeps
the first-occurrence order of keys with the last value written for each. -/
def dedupe_channels_last : List ChannelPayload → List ChannelPayload
  | [] => []
  | c :: rest =>
      if rest.any (fun d => d.xmltv_id = c.xmltv_id) then
        dedupe_channels_last rest
      else
        c :: dedupe_channels_last rest

/-- Single-row effect of the INSERT ... ON CONFLICT(xmltv_id) DO UPDATE of
store_channels on the channels table. -/
def upsert_channel (table : List ChannelPayload) (c : ChannelPayload) :
    List ChannelPayload :=
  match table with
  | [] => [c]
  | r :: rest =>
      if r.xmltv_id = c.xmltv_id then upsert_channel_row r c :: rest
      else r :: upsert_channel rest c

/-- Embedding of store_channels (db_service.py lines 88-133): deduplicate the
incoming payloads by xmltv_id keeping the last occurrence, then upsert each
into the channels table.  Chunked executemany batches apply the same row
statement sequentially, so the chunking of the payload is flattened. -/
def store_channels (table : List ChannelPayload)
    (channels : List ChannelPayload) : List ChannelPayload :=
  (dedupe_channels_last channels).foldl upsert_channel table

/-- C1 counterexample — the claim that a non-empty display name or icon is
never replaced fails on the code: merge_channels replaces the non-empty
display name A of channel ch1 with the later source value B, and the
store_channels upsert replaces the stored non-empty display name A with the
empty string coming from a later payload. -/
theorem channel_merge_overwrites_nonempty :
    (merge_channels [("ch1", ("ch1", "A", none))] [("ch1", "B", none)]).1 =
      [("ch1", ("ch1", "B", none))]
    ∧ store_channels [⟨"ch1", "A", some "i"⟩] [⟨"ch1", "", none⟩] =
      [⟨"ch1", "", some "i"⟩]
    ∧ ("A" : String) ≠ "B" ∧ ("" : String) ≠ "A" := by
  refine ⟨by decide, by decide, by decide, by decide⟩

/-- C1 (amended) — channel merge is last-non-empty-wins, not fill-only: for a
channel already held, merge_channels takes the later source value for the
display name exactly when it is non-empty and for the icon exactly when it is
truthy, keeping the old value otherwise (so an empty value never overwrites a
non-empty one in the in-memory merge); the store_channels upsert row always
takes the incoming display name, even an empty one over a non-empty one, and
takes the incoming icon unless it is NULL. -/
theorem channel_merge_last_nonempty_wins (k exDisp nDisp : String)
    (exIcon nIcon : Option String) :
    merge_channels [(k, (k, exDisp, exIcon))] [(k, nDisp, nIcon)] =
      ([(k, (k, (if nDisp ≠ "" then nDisp else exDisp),
             (if pyTruthyOpt nIcon then nIcon else exIcon)))], 0)
    ∧ upsert_channel_row ⟨k, exDisp, exIcon⟩ ⟨k, nDisp, nIcon⟩ =
      ⟨k, nDisp, match nIcon with | some v => some v | none => exIcon⟩ := by
  constructor
  · simp only [merge_channels, dictFind?, eq_self_iff_true, if_true]
    split_ifs <;> simp_all [dictInsert]
  · rfl

/-! ## Program rows and the trim deletes of db_service.py -/

/-- ProgramPayload from app/services/fetch_types.py; also used as the model of
a programs table row.  Datetimes are absolute seconds; created_at is not
claim-relevant and not modelled. -/
structure ProgramPayload where
  id : String
  xmltv_channel_id : String
  start_time : Int
  stop_time : Int
  title : String
  description : Option String
  deriving DecidableEq, Repr

/-- Embedding of delete_old_programs (db_service.py lines 25-45): counts the
rows with start_time < cutoff_time, deletes exactly those rows in one bulk
delete, and returns the remaining table with the count deleted. -/
def delete_old_programs (table : List ProgramPayload) (cutoff_time : Int) :
    List ProgramPayload × Nat :=
  (table.filter (fun p => !decide (p.start_time < cutoff_time)),
   (table.filter (fun p => decide (p.start_time < cutoff_time))).length)

/-- Embedding of delete_future_programs (db_service.py lines 48-68): counts
the rows with start_time > cutoff_time — strictly greater — deletes exactly
those rows in one bulk delete, and returns the remaining table with the count
deleted.  The function takes no inclusive parameter. -/
def delete_future_programs (table : List ProgramPayload) (cutoff_time : Int) :
    List ProgramPayload × Nat :=
  (table.filter (fun p => !decide (p.start_time > cutoff_time)),
   (table.filter (fun p => decide (p.start_time > cutoff_time))).length)

/-- Parameter names in the signature of delete_future_programs
(db_service.py line 48). -/
def delete_future_programs_params : List String := ["db", "cutoff_time"]

/-- Keyword-argument names supplied to delete_future_programs at the call
site in EPGFetchPipeline._trim_program_window (epg_fetch_service.py
line 149). -/
def trim_future_call_kwargs : List String := ["inclusive"]

/-- Python call semantics: a call raises TypeError when a supplied keyword
argument is not among the parameter names of the callee. -/
def python_call_raises_type_error (params kwargs : List String) : Bool :=
  kwargs.any (fun kw => !params.contains kw)

/-- A stored program starting exactly at midnight of the current day
(today_start is time 0 in this instance). -/
def programAtMidnight : ProgramPayload :=
  ⟨"pm", "ch1", 0, 1800, "Morning Show", none⟩

/-- C2 — evaluation of the trim code at the failing input: the future trim of
the claim would delete a row with start_time equal to floor(now, day), but
delete_future_programs keeps a row whose start_time equals the cutoff and
reports zero deleted, because its predicate is strictly greater-than; in
addition the call in _trim_program_window passes the keyword argument
inclusive, which is not a parameter of delete_future_programs, so the call
raises TypeError.  The archive half of the trim does match the claim: a row
with start_time equal to the archive cutoff is retained. -/
theorem future_trim_strict_and_kwarg_mismatch :
    delete_future_programs [programAtMidnight] 0 = ([programAtMidnight], 0)
    ∧ python_call_raises_type_error delete_future_programs_params
        trim_future_call_kwargs = true
    ∧ delete_old_programs [programAtMidnight] 0 = ([programAtMidnight], 0) := by
  refine ⟨by decide, by decide, by decide⟩

/-! ## store_programs (db_service.py lines 209-351) -/

/-- Natural key of a program row, the conflict target of the insert:
(xmltv_channel_id, start_time, title). -/
def natural_key (p : ProgramPayload) : String × Int × String :=
  (p.xmltv_channel_id, p.start_time, p.title)

/-- Payload construction loop of store_programs (lines 273-293): a program
whose id is already in the shared dedupe cache or among the ids seen earlier
in this call is skipped; every other program enters the payload and its id is
recorded as seen. -/
def build_payload (cache seen : List String) :
    List ProgramPayload → List ProgramPayload
  | [] => []
  | p :: rest =>
      if p.id ∈ cache ∨ p.id ∈ seen then build_payload cache seen rest
      else p :: build_payload cache (seen ++ [p.id]) rest

/-- Row effect of INSERT ... ON CONFLICT(xmltv_channel_id, start_time, title)
DO NOTHING, applied sequentially over the payload (executemany): a row whose
natural key is already in the table is skipped, every other row is appended
and counted; the returned count models the cursor rowcount of inserted
rows. -/
def insert_batch (table : List ProgramPayload) :
    List ProgramPayload → List ProgramPayload × Nat
  | [] => (table, 0)
  | p :: rest =>
      if table.any (fun q => decide (natural_key q = natural_key p)) then
        insert_batch table rest
      else
        let r := insert_batch (table ++ [p]) rest
        (r.1, r.2 + 1)

/-- Embedding of store_programs: build the payload by id-deduplication
against the cache, insert it with conflict suppression on the natural key,
and extend the cache with all payload ids when at least one row was inserted
(lines 324-326).  The chunking in chunks of 100000 rows applies the same
per-row statement sequentially, so it is flattened. -/
def store_programs (table : List ProgramPayload)
    (programs : List ProgramPayload) (cache : List String) :
    List ProgramPayload × Nat × List String :=
  let payload := build_payload cache [] programs
  let r := insert_batch table payload
  let cache' := if 0 < r.2 then cache ++ payload.map (·.id) else cache
  (r.1, r.2, cache')

/-- Embedding of EPGFetchPipeline._load_existing_program_ids
(epg_fetch_service.py lines 264-274): the ids of the stored programs whose
start_time lies in the inclusive window. -/
def load_existing_program_ids (table : List ProgramPayload)
    (window_start window_end : Int) : List String :=
  (table.filter (fun p =>
    decide (window_start ≤ p.start_time) && decide (p.start_time ≤ window_end))).map (·.id)

/-- Message of the TypeError Python raises for the unexpected keyword at the
future-trim call site. -/
def trim_type_error_msg : String :=
  "delete_future_programs() got an unexpected keyword argument 'inclusive'"

/-- Embedding of EPGFetchPipeline._trim_program_window (epg_fetch_service.py
lines 133-158).  Inside the session, delete_old_programs executes first
(line 145); the future-trim call (line 149) then supplies the keyword
inclusive, which delete_future_programs does not accept, so Python raises
TypeError before the callee body runs.  The session of session_scope wraps
both deletes in one transaction (database.py lines 104-106) and rolls back on
the exception, discarding the archive delete, and the except clause of
_trim_program_window catches only RuntimeError, so the TypeError propagates:
the error branch returns the exception with the table untouched.  The else
branch is what would execute if the keyword were accepted; it is unreachable
because the keyword mismatch is a static property of the two signatures. -/
def _trim_program_window (table : List ProgramPayload)
    (archive_cutoff today_start : Int) :
    Except String (List ProgramPayload × Nat × Nat) :=
  let r1 := delete_old_programs table archive_cutoff
  if python_call_raises_type_error delete_future_programs_params
      trim_future_call_kwargs then
    .error trim_type_error_msg
  else
    let r2 := delete_future_programs r1.1 today_start
    .ok (r2.1, r1.2, r2.2)

/-- Program path of one pipeline run (EPGFetchPipeline.run, lines 93-117):
the window trim runs before anything else; when it raises, the run propagates
the exception and neither the collect stage nor the persist stage executes,
so no insert count is ever produced.  When the trim returns, the run loads
the existing-id cache and stores the parsed programs, reporting the resulting
table and the inserted count. -/
def pipeline_run_programs (table : List ProgramPayload)
    (parsed : List ProgramPayload)
    (archive_cutoff today_start window_start window_end : Int) :
    Except String (List ProgramPayload × Nat) :=
  match _trim_program_window table archive_cutoff today_start with
  | .error msg => .error msg
  | .ok (t2, _, _) =>
      let cache := load_existing_program_ids t2 window_start window_end
      let r := store_programs t2 parsed cache
      .ok (r.1, r.2.1)

/-- Parse output of the one-program source on the first run. -/
def progRun1 : ProgramPayload := ⟨"id1", "ch1", 10, 20, "T", none⟩

/-- Parse output of the same source on the second run: identical natural
key, fresh parse-time id. -/
def progRun2 : ProgramPayload := ⟨"id2", "ch1", 10, 20, "T", none⟩

/-! ## EPGFetchPipeline._persist_sources (epg_fetch_service.py lines 276-379) -/

/-- Store state threaded through persistence: the two tables. -/
structure Store where
  channels : List ChannelPayload
  programs : List ProgramPayload
  deriving DecidableEq, Repr

/-- Collect-stage fields of a SourceSummary that the persistence loop reads:
index, whether the collect stage succeeded, the collect-stage error if any,
and the parsed payloads. -/
structure SummaryIn where
  index : Nat
  collect_success : Bool
  collect_error : Option String
  channels : List ChannelPayload
  programs : List ProgramPayload
  deriving DecidableEq, Repr

/-- Persistence-stage outcome of a SourceSummary: final status, error and
credited insert count. -/
structure SummaryOut where
  index : Nat
  status : String
  error : Option String
  programs_inserted : Nat
  deriving DecidableEq, Repr

/-- One source entry as seen by the persistence loop, together with the
injected outcome of its store step: none models a store step that completes,
some msg models a store step that raises an exception with message msg
(database errors are external to the shallow embedding, so they enter as
data). -/
structure PersistEntry where
  summary : SummaryIn
  inject : Option String
  deriving DecidableEq, Repr

/-- Store step for one successful source (lines 302-317): upsert the channels
and insert the programs against the shared cache. -/
def persist_one (store : Store) (s : SummaryIn) (cache : List String) :
    Store × Nat × List String :=
  let chTable := store_channels store.channels s.channels
  let r := store_programs store.programs s.programs cache
  (⟨chTable, r.1⟩, r.2.1, r.2.2)

/-- Embedding of the per-source persistence loop of _persist_sources: a
summary whose collect stage failed is skipped unchanged; a successful summary
is persisted; when the store step raises, only that summary is marked failed
with the error captured and zero rows credited, the existing-id cache is
reloaded from the store, and the loop continues with the remaining sources.
Returns the final store, the total inserted count, and the finalized
summaries in order. -/
def persist_sources (window_start window_end : Int) :
    List PersistEntry → Store → List String → Store × Nat × List SummaryOut
  | [], store, _ => (store, 0, [])
  | e :: rest, store, cache =>
      if e.summary.collect_success = false then
        let r := persist_sources window_start window_end rest store cache
        (r.1, r.2.1,
          ⟨e.summary.index, "failed", e.summary.collect_error, 0⟩ :: r.2.2)
      else
        match e.inject with
        | some msg =>
            let cache' := load_existing_program_ids store.programs
              window_start window_end
            let r := persist_sources window_start window_end rest store cache'
            (r.1, r.2.1, ⟨e.summary.index, "failed", some msg, 0⟩ :: r.2.2)
        | none =>
            let s := persist_one store e.summary cache
            let r := persist_sources window_start window_end rest s.1 s.2.2
            (r.1, r.2.1 + s.2.1,
              ⟨e.summary.index, "success", none, s.2.1⟩ :: r.2.2)

/-- The conflict-suppressing insert never removes a row already in the
table. -/
theorem insert_batch_mono (P : List ProgramPayload) (t : List ProgramPayload)
    (q : ProgramPayload) (hq : q ∈ t) : q ∈ (insert_batch t P).1 := by
  induction P generalizing t with
  | nil => exact hq
  | cons p rest ih =>
      by_cases hcf : t.any (fun r => decide (natural_key r = natural_key p)) = true
      · rw [insert_batch, if_pos hcf]
        exact ih t hq
      · rw [insert_batch, if_neg hcf]
        exact ih (t ++ [p]) (List.mem_append_left _ hq)

/-- store_programs never removes a row already in the table. -/
theorem store_programs_mono (table programs : List ProgramPayload)
    (cache : List String) (q : ProgramPayload) (hq : q ∈ table) :
    q ∈ (store_programs table programs cache).1 :=
  insert_batch_mono _ table q hq

/-- The persistence loop never removes a stored program row. -/
theorem persist_sources_mono (window_start window_end : Int)
    (entries : List PersistEntry) (store : Store) (cache : List String)
    (q : ProgramPayload) (hq : q ∈ store.programs) :
    q ∈ (persist_sources window_start window_end entries store cache).1.programs := by
  induction entries generalizing store cache with
  | nil => exact hq
  | cons e rest ih =>
      rw [persist_sources]
      by_cases hs : e.summary.collect_success = false
      · rw [if_pos hs]
        exact ih store cache hq
      · rw [if_neg hs]
        cases hinj : e.inject with
        | some msg => exact ih store _ hq
        | none =>
            exact ih _ _ (store_programs_mono store.programs e.summary.programs
              cache q hq)

/-- C8 — a store-step failure for one source is isolated: that summary alone
is marked failed with the error message captured and zero programs credited,
the existing-id cache is reloaded from the store, the remaining entries are
persisted exactly as the loop would persist them from the unchanged store, and
no already stored program row is ever removed by the loop. -/
theorem persist_failure_isolated (window_start window_end : Int)
    (e : PersistEntry) (rest : List PersistEntry) (store : Store)
    (cache : List String) (msg : String)
    (hsuc : e.summary.collect_success = true)
    (hinj : e.inject = some msg) :
    (persist_sources window_start window_end (e :: rest) store cache =
      (let r := persist_sources window_start window_end rest store
        (load_existing_program_ids store.programs window_start window_end);
       (r.1, r.2.1, ⟨e.summary.index, "failed", some msg, 0⟩ :: r.2.2)))
    ∧ ∀ (entries : List PersistEntry) (st : Store) (c : List String),
        ∀ q ∈ st.programs,
          q ∈ (persist_sources window_start window_end entries st c).1.programs := by
  constructor
  · rw [persist_sources, if_neg (by simp [hsuc]), hinj]
  · intro entries st c q hq
    exact persist_sources_mono window_start window_end entries st c q hq

/-- Witness for the C8 theorem: a failing first source followed by a healthy
second source, over a store already holding one program row. -/
theorem persist_failure_isolated_witness :
    persist_sources 0 100
        [⟨⟨1, true, none, [], [⟨"idA", "ch", 5, 6, "A", none⟩]⟩, some "disk full"⟩,
         ⟨⟨2, true, none, [], [⟨"idB", "ch", 7, 8, "B", none⟩]⟩, none⟩]
        ⟨[], [⟨"old", "ch", 1, 2, "Old", none⟩]⟩ [] =
      (let r := persist_sources 0 100
          [⟨⟨2, true, none, [], [⟨"idB", "ch", 7, 8, "B", none⟩]⟩, none⟩]
          ⟨[], [⟨"old", "ch", 1, 2, "Old", none⟩]⟩
          (load_existing_program_ids [⟨"old", "ch", 1, 2, "Old", none⟩] 0 100);
       (r.1, r.2.1, ⟨1, "failed", some "disk full", 0⟩ :: r.2.2)) := by
  exact (persist_failure_isolated 0 100
    ⟨⟨1, true, none, [], [⟨"idA", "ch", 5, 6, "A", none⟩]⟩, some "disk full"⟩
    [⟨⟨2, true, none, [], [⟨"idB", "ch", 7, 8, "B", none⟩]⟩, none⟩]
    ⟨[], [⟨"old", "ch", 1, 2, "Old", none⟩]⟩ [] "disk full" rfl rfl).1

/-! ## EPGFetchPipeline._build_result and fetch_and_process
(epg_fetch_service.py lines 381-406 and 423-458) -/

/-- Fields of the cycle report built by _build_result that the verified
properties read (the timestamp and detail fields are not claim-relevant). -/
structure ResultDict where
  status : String
  sources_processed : Nat
  sources_succeeded : Nat
  sources_failed : Nat
  programs_inserted : Nat
  programs_deleted : Nat
  deriving DecidableEq, Repr

/-- Embedding of _build_result: the status field is the literal string
success; successes and failures are counted from the summary statuses; the
deleted count is the sum of the past and future trim counts. -/
def build_result (sources_count deleted_past deleted_future inserted : Nat)
    (summaries : List SummaryOut) : ResultDict :=
  { status := "success"
    sources_processed := sources_count
    sources_succeeded := (summaries.filter (fun s => s.status = "success")).length
    sources_failed := (summaries.filter (fun s => s.status = "failed")).length
    programs_inserted := inserted
    programs_deleted := deleted_past + deleted_future }

/-- Outcome of EPGFetchPipeline.run as observed by fetch_and_process: either
the result dict, or an exception with its message (both RuntimeError and the
catch-all branch turn it into an error dict). -/
inductive RunOutcome where
  | ok (result : ResultDict)
  | exn (msg : String)
  deriving DecidableEq, Repr

/-- Structured response of the entry point: the skip dict, an error dict, or
the pipeline result dict. -/
inductive FetchOutcome where
  | skipped (message : String)
  | errorResult (message : String)
  | pipelineResult (r : ResultDict)
  deriving DecidableEq, Repr

/-- Embedding of fetch_and_process: when the module lock is already held the
call returns the skipped dict at once, leaving the store untouched; otherwise
the lock is acquired, the configuration is validated, the pipeline body runs
(possibly mutating the store before completing or raising), and the lock is
released on every exit path.  The returned Bool is the lock state after the
call for the caller holding no lock; run abstracts pipeline.run together with
its store effects.  FetchCoordinator.execute (fetch_coordinator.py lines
28-50) guards its callback with the identical non-blocking try-acquire. -/
def fetch_and_process (locked sources_configured database_configured : Bool)
    (run : Store → RunOutcome × Store) (store : Store) :
    Bool × Store × FetchOutcome :=
  if locked then
    (locked, store, .skipped "EPG fetch operation already in progress")
  else
    if sources_configured = false then
      (false, store, .errorResult "EPG_SOURCES not configured")
    else if database_configured = false then
      (false, store, .errorResult "DATABASE_PATH not configured")
    else
      match run store with
      | (.ok r, store') => (false, store', .pipelineResult r)
      | (.exn msg, store') => (false, store', .errorResult msg)

/-- C7 — single-flight behaviour of the entry point: while the lock is held,
any invocation returns the skipped dict immediately with the store unchanged
(no rows deleted, inserted or updated); and an invocation that acquires the
lock leaves it released on every exit path — configuration error, pipeline
completion, or pipeline exception — so a subsequent call can run. -/
theorem fetch_singleflight_skip_and_release
    (sources_configured database_configured : Bool)
    (run : Store → RunOutcome × Store) (store : Store) :
    fetch_and_process true sources_configured database_configured run store =
      (true, store, .skipped "EPG fetch operation already in progress")
    ∧ (fetch_and_process false sources_configured database_configured
        run store).1 = false := by
  constructor
  · rfl
  · rcases hr : run store with ⟨o, store'⟩
    cases o <;> cases sources_configured <;> cases database_configured <;>
      simp [fetch_and_process, hr]

/-- C9 — the pipeline report never downgrades the top-level status: for every
combination of counts and summaries the result built by _build_result carries
status success, even when every source failed; and when the pipeline body
completes without raising, fetch_and_process returns that result as is.  The
concrete conjuncts evaluate a cycle whose two sources both failed: zero
succeeded, two failed, status still success. -/
theorem result_status_always_success
    (sources_count deleted_past deleted_future inserted : Nat)
    (summaries : List SummaryOut) (store : Store) :
    (build_result sources_count deleted_past deleted_future inserted
      summaries).status = "success"
    ∧ (build_result 2 0 0 0
        [⟨1, "failed", some "boom1", 0⟩, ⟨2, "failed", some "boom2", 0⟩]).sources_succeeded = 0
    ∧ (build_result 2 0 0 0
        [⟨1, "failed", some "boom1", 0⟩, ⟨2, "failed", some "boom2", 0⟩]).sources_failed = 2
    ∧ (build_result 2 0 0 0
        [⟨1, "failed", some "boom1", 0⟩, ⟨2, "failed", some "boom2", 0⟩]).status = "success"
    ∧ fetch_and_process false true true
        (fun st => (.ok (build_result sources_count deleted_past deleted_future
          inserted summaries), st)) store =
      (false, store, .pipelineResult (build_result sources_count deleted_past
        deleted_future inserted summaries)) := by
  refine ⟨rfl, by decide, by decide, rfl, rfl⟩

/-- C6 counterexample — the claim that the second run reports
programs_inserted equal to 0 fails on the code at a concrete input: with one
configured source whose parse would yield one program, the first run aborts
in the window trim with TypeError and leaves the table empty, and the second
run over the unchanged empty table, parsing the same source again under a
fresh id, aborts identically; the entry point therefore returns the error
dict on the second run, which reports no programs_inserted at all, rather
than a result with programs_inserted equal to 0. -/
theorem second_run_reports_error_not_zero :
    pipeline_run_programs [] [progRun1] (-100) 0 (-100) 100 =
      .error trim_type_error_msg
    ∧ pipeline_run_programs [] [progRun2] (-100) 0 (-100) 100 =
      .error trim_type_error_msg
    ∧ fetch_and_process false true true
        (fun st => (.exn trim_type_error_msg, st)) ⟨[], []⟩ =
      (false, ⟨[], []⟩, .errorResult trim_type_error_msg) := by
  refine ⟨rfl, rfl, rfl⟩

/-- C6 (amended) — re-running the pipeline is never observed through
programs_inserted because no run reports that field at all: for every table,
parse result and window, the run aborts in the window trim with the TypeError
raised for the unexpected inclusive keyword, before the collect and persist
stages, leaving the store unchanged; the entry point turns the exception into
an error dict, on the first run and on every subsequent one. -/
theorem pipeline_run_always_errors (table parsed : List ProgramPayload)
    (archive_cutoff today_start window_start window_end : Int) (store : Store) :
    pipeline_run_programs table parsed archive_cutoff today_start
        window_start window_end = .error trim_type_error_msg
    ∧ _trim_program_window table archive_cutoff today_start =
      .error trim_type_error_msg
    ∧ fetch_and_process false true true
        (fun st => (.exn trim_type_error_msg, st)) store =
      (false, store, .errorResult trim_type_error_msg) := by
  refine ⟨rfl, rfl, rfl⟩

/-! ## download_file (app/utils/file_operations.py lines 46-111) -/

/-- Observable outcome of one HTTP attempt after raise_for_status: a body on
success, or one of the three exception classes the retry loop catches —
httpx.TimeoutException, httpx.ConnectError, and httpx.HTTPStatusError with
the response status code (raised for every 4xx and 5xx status). -/
inductive HttpOutcome where
  | success (body : String)
  | timeoutErr
  | connectErr
  | statusErr (code : Nat)
  deriving DecidableEq, Repr

/-- Result of the download loop: the body with the number of attempts used
and the backoff waits performed, or the surfaced error after the attempt
budget is spent. -/
inductive DownloadResult where
  | downloaded (body : String) (attempts_used : Nat) (backoff_waits : List Nat)
  | failed (err : HttpOutcome) (attempts_used : Nat) (backoff_waits : List Nat)
  deriving DecidableEq, Repr

/-- Embedding of the retry loop body of download_file from iteration
attempt of for attempt in range(3): a successful response returns at once;
each of the three caught exception classes — timeout, connection error, and
HTTP status error for any status, 4xx included — is retried identically
after a wait of 2 ^ attempt seconds while attempt < 2, and re-raised on the
final attempt. -/
def download_go (resp : Nat → HttpOutcome) : Nat → Nat → DownloadResult
  | attempt, 0 => .failed (resp attempt) attempt []
  | attempt, remaining + 1 =>
      match resp attempt with
      | .success body => .downloaded body (attempt + 1) []
      | e =>
          match remaining with
          | 0 => .failed e (attempt + 1) []
          | r + 1 =>
              match download_go resp (attempt + 1) (r + 1) with
              | .downloaded b n ws => .downloaded b n (2 ^ attempt :: ws)
              | .failed e2 n ws => .failed e2 n (2 ^ attempt :: ws)

/-- Embedding of download_file: the loop runs the attempts of range(3)
starting at attempt 0; the remaining counter carries the loop bound, so the
final attempt (the source condition attempt < 2 being false) is the one with
a remaining count of one; a zero remaining count is never reached from
here. -/
def download_file (resp : Nat → HttpOutcome) : DownloadResult :=
  download_go resp 0 3

/-- The three exception kinds the loop catches, as opposed to a success. -/
def isHttpError : HttpOutcome → Bool
  | .success _ => false
  | _ => true

/-- C4 counterexample — the claim that a 4xx response fails immediately on
the first response without any retry fails on the code: with a 404 on the
first attempt and a success on the second, download_file performs a backoff
wait of 1 second and returns the body after two attempts instead of surfacing
the 404 after one. -/
theorem download_retries_on_404 :
    download_file (fun n => if n = 0 then .statusErr 404 else .success "body") =
      .downloaded "body" 2 [1]
    ∧ (2 : Nat) ≠ 1 := by
  refine ⟨rfl, by decide⟩

/-- C4 (amended) — download_file treats all three caught error kinds alike,
HTTP status errors for 4xx included: any error on a non-final attempt causes
a backoff wait of 2 ^ attempt seconds (1 s then 2 s) and a retry; the error is
surfaced only after all 3 attempts fail, and a success on any attempt returns
the body with the waits performed so far. -/
theorem download_retries_all_status_errors (resp : Nat → HttpOutcome)
    (b : String) :
    (resp 0 = .success b → download_file resp = .downloaded b 1 [])
    ∧ (isHttpError (resp 0) = true → resp 1 = .success b →
        download_file resp = .downloaded b 2 [1])
    ∧ (isHttpError (resp 0) = true → isHttpError (resp 1) = true →
        resp 2 = .success b → download_file resp = .downloaded b 3 [1, 2])
    ∧ (isHttpError (resp 0) = true → isHttpError (resp 1) = true →
        isHttpError (resp 2) = true →
        download_file resp = .failed (resp 2) 3 [1, 2]) := by
  refine ⟨?_, ?_, ?_, ?_⟩
  · intro h0
    simp [download_file, download_go, h0]
  · intro he0 h1
    cases h0 : resp 0 <;> rw [h0] at he0 <;>
      simp_all [download_file, download_go, isHttpError]
  · intro he0 he1 h2
    cases h0 : resp 0 <;> rw [h0] at he0 <;>
      cases h1 : resp 1 <;> rw [h1] at he1 <;>
        simp_all [download_file, download_go, isHttpError]
  · intro he0 he1 he2
    cases h0 : resp 0 <;> rw [h0] at he0 <;>
      cases h1 : resp 1 <;> rw [h1] at he1 <;>
        cases h2 : resp 2 <;> rw [h2] at he2 <;>
          simp_all [download_file, download_go, isHttpError]

/-- Witness for the amended C4 theorem: three consecutive 503 responses are
retried with waits 1 and 2 and surfaced after the third attempt. -/
theorem download_retries_all_status_errors_witness :
    download_file (fun _ => .statusErr 503) =
      .failed ((fun _ : Nat => HttpOutcome.statusErr 503) 2) 3 [1, 2] :=
  (download_retries_all_status_errors (fun _ => .statusErr 503) "").2.2.2
    rfl rfl rfl

/-! ## xmltv_parser_service.py — time parsing and programme parsing -/

/-- Numeric value of a digit string (the int conversion core). -/
def natOfDigits (l : List Char) : Nat :=
  l.foldl (fun a c => a * 10 + (c.toNat - 48)) 0

/-- Python str.split with no separator argument, as used in
time_str.strip().split(): split on whitespace runs, ignoring leading and
trailing whitespace, so no empty parts are produced. -/
def pySplitWs (l : List Char) : List (List Char) :=
  (l.splitOnP Char.isWhitespace).filter (· ≠ [])

/-- Python int() on a timezone slice: an optional sign followed by at least
one digit (the slices taken by the source never carry inner whitespace or
underscores); any other input raises ValueError, modelled as none. -/
def pyInt (l : List Char) : Option Int :=
  match l with
  | [] => none
  | '+' :: rest =>
      if rest ≠ [] ∧ rest.all Char.isDigit then some (natOfDigits rest) else none
  | '-' :: rest =>
      if rest ≠ [] ∧ rest.all Char.isDigit then
        some (-(natOfDigits rest : Int))
      else none
  | _ => if l.all Char.isDigit then some (natOfDigits l) else none

/-- Gregorian leap-year rule used by datetime. -/
def isLeapYear (y : Nat) : Bool :=
  y % 4 = 0 && (y % 100 ≠ 0 || y % 400 = 0)

/-- Length of a month in the proleptic Gregorian calendar. -/
def daysInMonth (y m : Nat) : Nat :=
  if m = 2 then (if isLeapYear y then 29 else 28)
  else if m = 4 ∨ m = 6 ∨ m = 9 ∨ m = 11 then 30
  else 31

/-- Days from year 1 January 1 to the start of year y. -/
def daysBeforeYear (y : Nat) : Nat :=
  365 * (y - 1) + (y - 1) / 4 - (y - 1) / 100 + (y - 1) / 400

/-- Days from the start of year y to the start of month m. -/
def daysBeforeMonth (y m : Nat) : Nat :=
  ((List.range (m - 1)).map (fun i => daysInMonth y (i + 1))).foldl (· + ·) 0

/-- Absolute seconds of a naive proleptic-Gregorian datetime, measured from
year 1 January 1 00:00:00. -/
def naiveSecs (y m d h mi s : Nat) : Int :=
  ((daysBeforeYear y + daysBeforeMonth y m + (d - 1)) * 86400
    + h * 3600 + mi * 60 + s : Nat)

/-- datetime.strptime of the time part against YYYYMMDDHHMMSS on its
fixed-width zero-padded form (the shape XMLTV timestamps take): 14 digits cut
into the six fields with calendar validation; any other input raises
ValueError, modelled as none. -/
def strptime14 (l : List Char) : Option (Nat × Nat × Nat × Nat × Nat × Nat) :=
  if l.length = 14 ∧ l.all Char.isDigit then
    let y := natOfDigits (l.take 4)
    let m := natOfDigits ((l.drop 4).take 2)
    let d := natOfDigits ((l.drop 6).take 2)
    let h := natOfDigits ((l.drop 8).take 2)
    let mi := natOfDigits ((l.drop 10).take 2)
    let s := natOfDigits ((l.drop 12).take 2)
    if 1 ≤ y ∧ 1 ≤ m ∧ m ≤ 12 ∧ 1 ≤ d ∧ d ≤ daysInMonth y m
        ∧ h ≤ 23 ∧ mi ≤ 59 ∧ s ≤ 59 then
      some (y, m, d, h, mi, s)
    else none
  else none

/-- Embedding of _parse_xmltv_time (xmltv_parser_service.py lines 136-163) on
the character list of the input: split on whitespace; the first part is the
naive timestamp and the second the timezone, defaulting to +0000 when absent;
the sign is plus exactly when the first timezone character is the plus sign
(any other first character counts as minus, as in the source); the hour and
minute components come from int() on the slices [1:3] and [3:5]; the result
is the naive time minus the declared offset, an instant in UTC.  An empty
split (IndexError on parts[0]) or a failed int()/strptime (ValueError) is
modelled as none, matching the except clause of the caller. -/
def parse_xmltv_time_chars (l : List Char) : Option Int :=
  match pySplitWs l with
  | [] => none
  | time_part :: restParts =>
      let tz_part :=
        match restParts with
        | tz :: _ => tz
        | [] => ['+', '0', '0', '0', '0']
      match strptime14 time_part with
      | none => none
      | some (y, m, d, h, mi, s) =>
          match tz_part with
          | [] => none
          | c0 :: _ =>
              let tz_sign : Int := if c0 = '+' then 1 else -1
              match pyInt ((tz_part.drop 1).take 2),
                    pyInt ((tz_part.drop 3).take 2) with
              | some tz_hours, some tz_mins =>
                  some (naiveSecs y m d h mi s
                    - 60 * (tz_sign * (tz_hours * 60 + tz_mins)))
              | _, _ => none

/-- String-level wrapper of the time parser. -/
def _parse_xmltv_time (time_str : String) : Option Int :=
  parse_xmltv_time_chars time_str.data

/-- Embedding of _is_in_time_window (lines 166-177): true when no bound is
given; otherwise false when below the lower or above the upper bound.  The
datetime objects of the source are always truthy, so the truthiness tests on
the bounds are None tests. -/
def _is_in_time_window (time_value : Int) (time_from time_to : Option Int) :
    Bool :=
  if time_from = none ∧ time_to = none then true
  else if (match time_from with
           | some a => decide (time_value < a)
           | none => false) then false
  else if (match time_to with
           | some b => decide (time_value > b)
           | none => false) then false
  else true

/-- Attributes and child texts of one programme element as the parser reads
them: the channel, start and stop attributes, and the _get_text results for
title and desc (none models a missing child or one with falsy text). -/
structure ProgrammeElem where
  channel : Option String
  start : Option String
  stop : Option String
  title : Option String
  desc : Option String
  deriving DecidableEq, Repr

/-- Embedding of _parse_single_program (lines 98-133): skip when the channel,
start or stop attribute is missing or empty or the title text is missing;
skip when either timestamp fails to parse; skip when the parsed start is
outside the window; otherwise emit the payload.  The uuid4 parse-time id is
nondeterministic in the source and enters as the fresh_id argument.  No
comparison of start against stop is performed anywhere in the function. -/
def _parse_single_program (programme : ProgrammeElem)
    (time_from time_to : Option Int) (fresh_id : String) :
    Option ProgramPayload :=
  match programme.channel, programme.start, programme.stop, programme.title with
  | some channel_id, some start_str, some stop_str, some title =>
      if channel_id = "" ∨ start_str = "" ∨ stop_str = "" then none
      else
        match _parse_xmltv_time start_str, _parse_xmltv_time stop_str with
        | some start_time, some stop_time =>
            if _is_in_time_window start_time time_from time_to then
              some ⟨fresh_id, channel_id, start_time, stop_time, title,
                programme.desc⟩
            else none
        | _, _ => none
  | _, _, _, _ => none

/-- A degenerate programme element whose start and stop attributes carry the
same instant. -/
def degenerateProgramme : ProgrammeElem :=
  ⟨some "ch1", some "20250101120000 +0000", some "20250101120000 +0000",
   some "Show", none⟩

/-- C3 counterexample — the claim that a programme whose parsed start time is
not strictly before its parsed stop time is dropped fails on the code: the
parser emits a payload for a programme whose start equals its stop, so the
emitted record violates start_time < stop_time. -/
theorem parser_emits_equal_start_stop :
    (_parse_single_program degenerateProgramme none none "pid").isSome = true
    ∧ (_parse_single_program degenerateProgramme none none "pid").map
        (fun p => decide (p.start_time < p.stop_time)) = some false := by
  refine ⟨by decide, by decide⟩

/-- C3 (amended) — what the parser does guarantee about every emitted record:
the start and stop attributes are present and parse successfully to the
recorded times, the start time lies inside the window, and the title and
channel are the element values; no relation between start_time and stop_time
is enforced. -/
theorem parser_output_characterization (e : ProgrammeElem)
    (time_from time_to : Option Int) (fresh_id : String) (p : ProgramPayload)
    (h : _parse_single_program e time_from time_to fresh_id = some p) :
    (∃ st, e.start = some st ∧ _parse_xmltv_time st = some p.start_time)
    ∧ (∃ sp, e.stop = some sp ∧ _parse_xmltv_time sp = some p.stop_time)
    ∧ _is_in_time_window p.start_time time_from time_to = true
    ∧ e.title = some p.title ∧ e.channel = some p.xmltv_channel_id := by
  rcases e with ⟨ch, st, sp, ti, de⟩
  cases ch <;> cases st <;> cases sp <;> cases ti <;>
    simp only [_parse_single_program] at h <;> try simp at h
  rename_i chv stv spv tiv
  obtain ⟨hfields, hmatch⟩ := h
  cases hst : _parse_xmltv_time stv with
  | none => rw [hst] at hmatch; simp at hmatch
  | some sv =>
      cases hsp : _parse_xmltv_time spv with
      | none => rw [hst, hsp] at hmatch; simp at hmatch
      | some pv =>
          rw [hst, hsp] at hmatch
          dsimp only at hmatch
          by_cases hw : _is_in_time_window sv time_from time_to = true
          · rw [if_pos hw] at hmatch
            obtain rfl := Option.some.inj hmatch
            refine ⟨⟨stv, rfl, ?_⟩, ⟨spv, rfl, ?_⟩, ?_, rfl, rfl⟩
            · exact hst
            · exact hsp
            · exact hw
          · rw [if_neg hw] at hmatch; simp at hmatch

/-- A well-formed programme element inside the window. -/
def goodProgramme : ProgrammeElem :=
  ⟨some "ch1", some "20250101000000 +0000", some "20250101003000 +0000",
   some "Show", none⟩

/-- The payload the parser emits for goodProgramme. -/
def goodParsed : ProgramPayload :=
  ⟨"pid", "ch1", naiveSecs 2025 1 1 0 0 0, naiveSecs 2025 1 1 0 30 0,
   "Show", none⟩

/-- Witness for the amended C3 theorem at the concrete programme
goodProgramme. -/
theorem parser_output_characterization_witness :
    (∃ st, goodProgramme.start = some st
      ∧ _parse_xmltv_time st = some goodParsed.start_time)
    ∧ (∃ sp, goodProgramme.stop = some sp
      ∧ _parse_xmltv_time sp = some goodParsed.stop_time)
    ∧ _is_in_time_window goodParsed.start_time none none = true
    ∧ goodProgramme.title = some goodParsed.title
    ∧ goodProgramme.channel = some goodParsed.xmltv_channel_id :=
  parser_output_characterization goodProgramme none none "pid" goodParsed
    (by decide)

/-- A programme element whose timestamps omit the timezone part entirely. -/
def bareProgramme : ProgrammeElem :=
  ⟨some "ch1", some "20250101120000", some "20250101123000", some "Show", none⟩

/-- The payload the parser emits for bareProgramme: the bare instants read as
UTC. -/
def bareParsed : ProgramPayload :=
  ⟨"pid", "ch1", naiveSecs 2025 1 1 12 0 0, naiveSecs 2025 1 1 12 30 0,
   "Show", none⟩

/-- C10 — a timestamp with no timezone part is not treated as unparsable: for
every nonempty whitespace-free input the time parser returns exactly what it
returns for the same input with an explicit +0000 suffix, namely the naive
instant interpreted as UTC whenever strptime accepts it; and a programme
element with bare timestamps is accepted into the parse output. -/
theorem bare_timestamp_defaults_utc (l : List Char) (hne : l ≠ [])
    (hws : ∀ c ∈ l, c.isWhitespace = false) :
    parse_xmltv_time_chars l =
      parse_xmltv_time_chars (l ++ ' ' :: ['+', '0', '0', '0', '0'])
    ∧ parse_xmltv_time_chars l =
      (strptime14 l).map (fun t =>
        naiveSecs t.1 t.2.1 t.2.2.1 t.2.2.2.1 t.2.2.2.2.1 t.2.2.2.2.2)
    ∧ _parse_single_program bareProgramme none none "pid" = some bareParsed := by
  have hprop : ∀ c ∈ l, ¬ Char.isWhitespace c := fun c hc => by simp [hws c hc]
  have hsplit : pySplitWs l = [l] := by
    unfold pySplitWs
    rw [List.splitOnP_eq_single _ _ hprop]
    simp [hne]
  have hsplit2 : pySplitWs (l ++ ' ' :: ['+', '0', '0', '0', '0']) =
      [l, ['+', '0', '0', '0', '0']] := by
    unfold pySplitWs
    rw [List.splitOnP_first _ _ hprop ' ' (by decide) _,
        List.splitOnP_eq_single _ _ (by decide)]
    simp [hne]
  refine ⟨?_, ?_, by decide⟩
  · unfold parse_xmltv_time_chars
    rw [hsplit, hsplit2]
  · unfold parse_xmltv_time_chars
    rw [hsplit]
    cases hs : strptime14 l with
    | none => dsimp only; rw [hs]; rfl
    | some t =>
        obtain ⟨y, m, d, h, mi, s⟩ := t
        dsimp only
        rw [hs]
        dsimp only
        rw [show pyInt (List.take 2 (List.drop 1 ['+', '0', '0', '0', '0'])) =
              some 0 from by decide,
            show pyInt (List.take 2 (List.drop 3 ['+', '0', '0', '0', '0'])) =
              some 0 from by decide]
        simp

/-- Witness for the C10 theorem at the concrete bare timestamp input. -/
theorem bare_timestamp_defaults_utc_witness :
    parse_xmltv_time_chars "20250101120000".data =
      parse_xmltv_time_chars ("20250101120000".data ++ ' ' :: ['+', '0', '0', '0', '0'])
    ∧ parse_xmltv_time_chars "20250101120000".data =
      (strptime14 "20250101120000".data).map (fun t =>
        naiveSecs t.1 t.2.1 t.2.2.1 t.2.2.2.1 t.2.2.2.2.1 t.2.2.2.2.2)
    ∧ _parse_single_program bareProgramme none none "pid" = some bareParsed :=
  bare_timestamp_defaults_utc "20250101120000".data (by decide) (by decide)

/-! ## Parse timeout (epg_downloader_service.py, epg_fetch_service.py,
config.py) -/

/-- Timeout in seconds hardcoded in the asyncio.wait_for call of
parse_xmltv_async (epg_downloader_service.py line 106). -/
def parse_xmltv_async_timeout_sec : Nat := 300

/-- Default of CustomSettings.epg_parse_timeout_sec (config.py line 26),
whose comment documents that a configured 0 disables the timeout. -/
def epg_parse_timeout_sec_default : Nat := 600

/-- Parameter names of the def of process_single_source
(epg_downloader_service.py lines 20-25). -/
def process_single_source_params : List String :=
  ["source_url", "source_index", "time_from", "time_to"]

/-- Keyword-argument names supplied to process_single_source at the call in
EPGFetchPipeline._process_source (epg_fetch_service.py line 202). -/
def process_source_call_kwargs : List String := ["parse_timeout_seconds"]

/-- Exceptions of the parse path as the orchestrator observes them:
ValueError, TypeError, and the XML syntax error of a malformed document. -/
inductive PyExc where
  | valueError (msg : String)
  | typeError (msg : String)
  | xmlSyntaxError (msg : String)
  deriving DecidableEq, Repr

/-- Embedding of parse_xmltv_async (epg_downloader_service.py lines 65-124):
the parse job runs under asyncio.wait_for with the constant 300-second
timeout — no configured value reaches this function — and an expired timeout
is re-raised as a ValueError whose message says the file may be too large or
malformed; empty channel or program lists also raise ValueError.  The
elapsed argument is the wall-clock duration of the parse job and parsed its
outcome. -/
def parse_xmltv_async (elapsed : Nat)
    (parsed : Except PyExc (List ChannelPayload × List ProgramPayload)) :
    Except PyExc (List ChannelPayload × List ProgramPayload) :=
  if elapsed > parse_xmltv_async_timeout_sec then
    .error (.valueError
      "XML parsing timed out - file may be too large or malformed")
  else
    match parsed with
    | .error e => .error e
    | .ok (channels, programs) =>
        if channels.isEmpty then
          .error (.valueError "No channels found in XMLTV")
        else if programs.isEmpty then
          .error (.valueError "No programs found in XMLTV")
        else .ok (channels, programs)

/-- C5 — evaluation of the parse-timeout code at the failing configuration:
the orchestrator passes the keyword parse_timeout_seconds to
process_single_source, which accepts no such parameter, so every source task
raises TypeError; the wait_for timeout is the constant 300, not the
configured epg_parse_timeout_sec (whose default is 600 and whose value 0 is
documented to disable the timeout); a parse exceeding 300 seconds errors
even though parsing itself succeeded, and the error raised is the same
ValueError constructor as the no-channels failure — with a message that
itself conflates the timeout with a malformed document — rather than a
distinct failure kind. -/
theorem parse_timeout_hardcoded_and_call_mismatch :
    python_call_raises_type_error process_single_source_params
      process_source_call_kwargs = true
    ∧ parse_xmltv_async_timeout_sec = 300
    ∧ parse_xmltv_async_timeout_sec ≠ epg_parse_timeout_sec_default
    ∧ parse_xmltv_async 301
        (.ok ([⟨"c", "C", none⟩], [⟨"i", "c", 0, 1, "T", none⟩])) =
      .error (.valueError
        "XML parsing timed out - file may be too large or malformed")
    ∧ parse_xmltv_async 100 (.ok ([], [])) =
      .error (.valueError "No channels found in XMLTV") := by
  refine ⟨by decide, by decide, by decide, rfl, rfl⟩

end Epg
